import Mathlib

/-!
Verification of the document-to-prompt pipeline of `src/app.py`
(an LLM document summarizer).

The Python functions are shallowly embedded as Lean functions:

* Python `str` is `String`; a Python call that may raise an exception is
  modelled as `Except String α` carrying the exception text `str(e)`.
* The third-party parsing libraries (`pypdf`, `python-docx`, `pandas`,
  `python-pptx`) are modelled by the data the source actually reads from
  them: a PDF is the list of its pages' `extract_text()` results, a DOCX
  the list of its paragraphs' texts, a spreadsheet its column names and
  rows, a presentation its slides' shapes (a shape that has no `text`
  attribute carries `none`).
* The two OpenAI chat calls are modelled by oracles
  `String → Except String String` mapping the user-message content of the
  request to either the response content (`Except.ok`) or an exception
  (`Except.error`).
* A Streamlit `st.error` call is recorded in an `errors` list returned
  next to the function's value, so that error surfacing is observable.
-/

/-- A Python expression that may raise: `Except.error` carries `str(e)`. -/
abbrev PyExcept (α : Type) := Except String α

/-- `extract_text_from_pdf` (src/app.py:18-24).  `reader.pages` is the list of
per-page `page.extract_text()` results; an image-only page yields `""`.
The loop `for page in reader.pages: text += page.extract_text() + "\n"`
is the left fold below. -/
def extract_text_from_pdf (pages : List String) : String :=
  pages.foldl (fun text page => text ++ page ++ "\n") ""

/-- `extract_text_from_docx` (src/app.py:26-32): one line per paragraph. -/
def extract_text_from_docx (paragraphs : List String) : String :=
  paragraphs.foldl (fun text p => text ++ p ++ "\n") ""

/-- The part of a pandas `DataFrame` that `extract_text_from_excel` reads:
`df.columns` and the data rows (so `len(df) = rows.length`). -/
structure DataFrame where
  columns : List String
  rows : List (List String)
deriving Repr, DecidableEq

/-- pandas `df.head()`: the first 5 rows (pandas default `n=5`). -/
def DataFrame.head (df : DataFrame) : DataFrame :=
  ⟨df.columns, df.rows.take 5⟩

/-- Model of pandas `DataFrame.to_string()`: a header line with the column
names and then one line per data row.  (The exact cell alignment of pandas
is irrelevant to the claims; what matters is which rows are rendered.) -/
def DataFrame.to_string (df : DataFrame) : String :=
  String.intercalate "  " df.columns
    ++ String.join (df.rows.map (fun r => "\n" ++ String.intercalate "  " r))

/-- `extract_text_from_excel` (src/app.py:34-45). -/
def extract_text_from_excel (df : DataFrame) : String :=
  "" ++ ("Colonnes : " ++ String.intercalate ", " df.columns ++ "\n\n")
     ++ ("Nombre de lignes : " ++ toString df.rows.length ++ "\n")
     ++ "Résumé des données :\n"
     ++ (df.head.to_string ++ "\n")

/-- A python-pptx shape: `text = some s` when the shape has a `text`
attribute (`hasattr(shape, "text")`), `none` otherwise. -/
structure Shape where
  text : Option String
deriving Repr, DecidableEq

/-- A python-pptx slide: its shapes, in shape order. -/
structure Slide where
  shapes : List Shape
deriving Repr, DecidableEq

/-- `extract_text_from_pptx` (src/app.py:47-56): the nested
`for slide in prs.slides: / for shape in slide.shapes:` loops. -/
def extract_text_from_pptx (slides : List Slide) : String :=
  slides.foldl
    (fun text slide =>
      slide.shapes.foldl
        (fun t sh => match sh.text with
          | some s => t ++ s ++ "\n"
          | none => t)
        (text ++ "\n--- Nouvelle diapositive ---\n"))
    ""

/-- Strict UTF-8 decoding, modelling Python `bytes.decode("utf-8")`:
rejects truncated sequences, stray continuation bytes, overlong encodings,
surrogates and code points above U+10FFFF. -/
def utf8Decode : List Nat → Option (List Char)
  | [] => some []
  | b :: rest =>
    if b < 0x80 then
      (utf8Decode rest).map (fun cs => Char.ofNat b :: cs)
    else if 0xC2 ≤ b ∧ b ≤ 0xDF then
      match rest with
      | c1 :: r =>
        if 0x80 ≤ c1 ∧ c1 ≤ 0xBF then
          (utf8Decode r).map (fun cs =>
            Char.ofNat ((b - 0xC0) * 0x40 + (c1 - 0x80)) :: cs)
        else none
      | [] => none
    else if 0xE0 ≤ b ∧ b ≤ 0xEF then
      match rest with
      | c1 :: c2 :: r =>
        if (if b = 0xE0 then 0xA0 ≤ c1 ∧ c1 ≤ 0xBF
            else if b = 0xED then 0x80 ≤ c1 ∧ c1 ≤ 0x9F
            else 0x80 ≤ c1 ∧ c1 ≤ 0xBF) ∧ 0x80 ≤ c2 ∧ c2 ≤ 0xBF then
          (utf8Decode r).map (fun cs =>
            Char.ofNat ((b - 0xE0) * 0x1000 + (c1 - 0x80) * 0x40 + (c2 - 0x80)) :: cs)
        else none
      | _ => none
    else if 0xF0 ≤ b ∧ b ≤ 0xF4 then
      match rest with
      | c1 :: c2 :: c3 :: r =>
        if (if b = 0xF0 then 0x90 ≤ c1 ∧ c1 ≤ 0xBF
            else if b = 0xF4 then 0x80 ≤ c1 ∧ c1 ≤ 0x8F
            else 0x80 ≤ c1 ∧ c1 ≤ 0xBF) ∧ 0x80 ≤ c2 ∧ c2 ≤ 0xBF ∧ 0x80 ≤ c3 ∧ c3 ≤ 0xBF then
          (utf8Decode r).map (fun cs =>
            Char.ofNat ((b - 0xF0) * 0x40000 + (c1 - 0x80) * 0x1000
              + (c2 - 0x80) * 0x40 + (c3 - 0x80)) :: cs)
        else none
      | _ => none
    else none

/-- An uploaded file as `get_file_content` sees it: the declared media type
(`uploaded_file.type`), the raw bytes (`uploaded_file.getvalue()`), and the
result of handing the stream to each parsing library (an `Except.error`
models the library raising while parsing / extracting). -/
structure UploadedFile where
  type : String
  rawBytes : List Nat
  asPdf : PyExcept (List String)
  asDocx : PyExcept (List String)
  asExcel : PyExcept DataFrame
  asPptx : PyExcept (List Slide)

/-- `get_file_content` (src/app.py:58-78): dispatch on `uploaded_file.type`;
any exception in the `try` block is caught, shown via `st.error`, and `None`
is returned.  The result is the returned value together with the list of
error messages shown. -/
def get_file_content (f : UploadedFile) : Option String × List String :=
  let attempt : PyExcept String :=
    if f.type = "application/pdf" then
      f.asPdf.map extract_text_from_pdf
    else if f.type = "application/vnd.openxmlformats-officedocument.wordprocessingml.document" then
      f.asDocx.map extract_text_from_docx
    else if f.type = "application/vnd.ms-excel"
        ∨ f.type = "application/vnd.openxmlformats-officedocument.spreadsheetml.sheet" then
      f.asExcel.map extract_text_from_excel
    else if f.type = "application/vnd.ms-powerpoint"
        ∨ f.type = "application/vnd.openxmlformats-officedocument.presentationml.presentation" then
      f.asPptx.map extract_text_from_pptx
    else
      match utf8Decode f.rawBytes with
      | some cs => .ok (String.mk cs)
      | none => .error "UnicodeDecodeError: invalid start byte"
  match attempt with
  | .ok s => (some s, [])
  | .error e => (none, ["Erreur lors de la lecture du fichier : " ++ e])

/-- The user-message content of the language-detection request
(src/app.py:87): only the first 500 characters of the text are sent. -/
def detect_user_message (text : String) : String :=
  "Quelle est la langue de ce texte ? Réponds uniquement par le code langue.\n\nTexte: "
    ++ text.take 500

/-- What `detect_text_language` produces: the language code it returns and
the `st.error` messages it showed. -/
structure DetectResult where
  lang : String
  errors : List String
deriving Repr, DecidableEq

/-- `detect_text_language` (src/app.py:80-95): send the classification
request; on success return the stripped response content, on any exception
show an error and return the default `"fr"`. -/
def detect_text_language (oracle : String → PyExcept String) (text : String) :
    DetectResult :=
  match oracle (detect_user_message text) with
  | .ok content => ⟨content.trim, []⟩
  | .error e => ⟨"fr", ["Erreur lors de la détection de la langue : " ++ e]⟩

/-- The `lang_names` dict (src/app.py:109-114). -/
def lang_names : List (String × String) :=
  [("fr", "français"), ("en", "anglais"), ("es", "espagnol"),
   ("de", "allemand"), ("it", "italien"), ("pt", "portugais"),
   ("nl", "néerlandais"), ("ru", "russe"), ("zh", "chinois"),
   ("ja", "japonais")]

/-- The `lang_instruction` computation (src/app.py:116-118): empty when the
input language equals the output language, otherwise a translation
instruction built from `lang_names[output_language]` — whose lookup raises
`KeyError` when the output language is not a key. -/
def lang_instruction_of (input_language : Option String) (output_language : String) :
    PyExcept String :=
  if input_language ≠ some output_language then
    match lang_names.lookup output_language with
    | some name => .ok ("Traduis en " ++ name ++ ". ")
    | none => .error ("KeyError: " ++ output_language)
  else
    .ok ""

/-- The `prompt_templates` dict (src/app.py:120-140), with the exact
f-string contents (including the source's trailing spaces and the
triple-quoted indentation). -/
def prompt_templates (lang_instruction : String) (max_length : Nat) (text : String) :
    List (String × String) :=
  [("vulgarized", lang_instruction
      ++ "Résume le texte suivant de manière vulgarisée, en utilisant un langage simple \n            et accessible. Longueur approximative : "
      ++ toString max_length ++ " mots.\n            \n            Texte : " ++ text),
   ("technical", lang_instruction
      ++ "Fais un résumé technique du texte suivant, en te concentrant sur les aspects \n            techniques et méthodologiques importants. Longueur approximative : "
      ++ toString max_length ++ " mots.\n            \n            Texte : " ++ text),
   ("bullets", lang_instruction
      ++ "Résume les points clés du texte suivant sous forme de liste à puces.\n            Maximum "
      ++ toString max_length ++ " points importants.\n            \n            Texte : " ++ text),
   ("executive", lang_instruction
      ++ "Génère un executive summary du texte suivant, focalisé sur les points \n            stratégiques et les conclusions principales. Longueur approximative : "
      ++ toString max_length ++ " mots.\n            \n            Texte : " ++ text)]

/-- What `get_summary_from_openai` produces: the returned summary (`none`
models Python `None`) and the `st.error` messages shown. -/
structure SummaryOutcome where
  summary : Option String
  errors : List String
deriving Repr, DecidableEq

/-- `get_summary_from_openai` (src/app.py:97-157).  When `detect_language`
is set, the caller's `input_language` is overwritten with the detected
language.  Any exception in the `try` block — the `KeyError` from
`lang_names[output_language]`, the `KeyError` from
`prompt_templates[summary_type]`, or the API call raising — is caught,
shown via `st.error`, and `None` is returned.  (The purely informational
`st.info`/`st.write` on a detected-language mismatch is not an error and is
not recorded.) -/
def get_summary_from_openai (detectOracle summaryOracle : String → PyExcept String)
    (text : String) (summary_type : String) (max_length : Nat)
    (detect_language : Bool) (input_language : Option String)
    (output_language : String) : SummaryOutcome :=
  let detStep : Option String × List String :=
    if detect_language then
      let d := detect_text_language detectOracle text
      (some d.lang, d.errors)
    else
      (input_language, [])
  match lang_instruction_of detStep.1 output_language with
  | .error e => ⟨none, detStep.2 ++ ["Erreur lors de la génération du résumé : " ++ e]⟩
  | .ok li =>
    match (prompt_templates li max_length text).lookup summary_type with
    | none =>
      ⟨none, detStep.2 ++ ["Erreur lors de la génération du résumé : KeyError: " ++ summary_type]⟩
    | some prompt =>
      match summaryOracle prompt with
      | .ok content => ⟨some content, detStep.2⟩
      | .error e => ⟨none, detStep.2 ++ ["Erreur lors de la génération du résumé : " ++ e]⟩

/-! ### Specification-side renderings used to state the extractor claims -/

/-- One page's contribution to the PDF extraction: the page text followed by
exactly one newline, pages in order. -/
def render_pages : List String → String
  | [] => ""
  | p :: ps => p ++ "\n" ++ render_pages ps

/-- One shape's contribution: its text followed by a newline when the shape
exposes text, nothing otherwise. -/
def render_shape (sh : Shape) : String :=
  match sh.text with
  | some s => s ++ "\n"
  | none => ""

/-- The shapes' contributions, in shape order. -/
def render_shapes : List Shape → String
  | [] => ""
  | sh :: rest => render_shape sh ++ render_shapes rest

/-- Each slide contributes its separator line and then its shapes' texts. -/
def render_slides : List Slide → String
  | [] => ""
  | sl :: rest =>
      "\n--- Nouvelle diapositive ---\n" ++ render_shapes sl.shapes ++ render_slides rest

/-- The fixed instruction wording that opens each style's template, right
after the optional `lang_instruction` (used to state that the four styles
are structurally distinct). -/
def style_instruction_head (s : String) : String :=
  if s = "vulgarized" then "Résume le texte suivant de manière vulgarisée"
  else if s = "technical" then "Fais un résumé technique du texte suivant"
  else if s = "bullets" then "Résume les points clés du texte suivant sous forme de liste à puces"
  else if s = "executive" then "Génère un executive summary du texte suivant"
  else ""

/-! ### String helper lemmas -/

lemma str_data_empty : ("" : String).data = [] := rfl

lemma str_append_assoc (a b c : String) : a ++ b ++ c = a ++ (b ++ c) := by
  apply String.ext
  simp [String.data_append, List.append_assoc]

lemma str_empty_append (s : String) : "" ++ s = s := by
  apply String.ext
  simp [String.data_append, str_data_empty]

lemma str_append_empty (s : String) : s ++ "" = s := by
  apply String.ext
  simp [String.data_append, str_data_empty]

lemma pdf_foldl_shift (ps : List String) (a : String) :
    ps.foldl (fun t p => t ++ p ++ "\n") a = a ++ render_pages ps := by
  induction ps generalizing a with
  | nil => simp [render_pages, str_append_empty]
  | cons p ps ih =>
    simp only [List.foldl, render_pages]
    rw [ih]
    simp [str_append_assoc]

lemma extract_pdf_eq_render (pages : List String) :
    extract_text_from_pdf pages = render_pages pages := by
  rw [extract_text_from_pdf, pdf_foldl_shift, str_empty_append]

lemma pptx_inner_shift (shs : List Shape) (a : String) :
    shs.foldl
      (fun t sh => match sh.text with
        | some s => t ++ s ++ "\n"
        | none => t) a
      = a ++ render_shapes shs := by
  induction shs generalizing a with
  | nil => simp [render_shapes, str_append_empty]
  | cons sh rest ih =>
    cases h : sh.text with
    | none =>
      simp only [List.foldl, h]
      rw [ih]
      simp [render_shapes, render_shape, h, str_empty_append]
    | some s =>
      simp only [List.foldl, h]
      rw [ih]
      simp [render_shapes, render_shape, h, str_append_assoc]

lemma pptx_foldl_shift (sls : List Slide) (a : String) :
    sls.foldl
      (fun text slide =>
        slide.shapes.foldl
          (fun t sh => match sh.text with
            | some s => t ++ s ++ "\n"
            | none => t)
          (text ++ "\n--- Nouvelle diapositive ---\n")) a
      = a ++ render_slides sls := by
  induction sls generalizing a with
  | nil => simp [render_slides, str_append_empty]
  | cons sl rest ih =>
    simp only [List.foldl]
    rw [pptx_inner_shift, ih]
    simp [render_slides, str_append_assoc]

lemma extract_pptx_eq_render (slides : List Slide) :
    extract_text_from_pptx slides = render_slides slides := by
  rw [extract_text_from_pptx, pptx_foldl_shift, str_empty_append]

lemma render_shapes_of_no_text (shs : List Shape)
    (h : ∀ sh ∈ shs, sh.text = none) : render_shapes shs = "" := by
  induction shs with
  | nil => rfl
  | cons sh rest ih =>
    have h1 : sh.text = none := h sh (by simp)
    have h2 : ∀ s ∈ rest, s.text = none := fun s hs => h s (by simp [hs])
    simp [render_shapes, render_shape, h1, ih h2, str_empty_append]

/-! ### Claims about the extractors -/

/-- C6: PDF extraction concatenates each page's extracted text in page
order, each page followed by exactly one newline (`render_pages`); a PDF
with 2 pages yields exactly the 2 newline-terminated segments in order, and
a page with no extractable text (empty string) contributes an empty line
rather than a failure. -/
theorem pdf_extraction_structure :
    (∀ pages, extract_text_from_pdf pages = render_pages pages)
    ∧ (∀ p1 p2 : String, extract_text_from_pdf [p1, p2] = p1 ++ "\n" ++ (p2 ++ "\n"))
    ∧ (∀ ps, extract_text_from_pdf ("" :: ps) = "\n" ++ extract_text_from_pdf ps) := by
  refine ⟨extract_pdf_eq_render, fun p1 p2 => ?_, fun ps => ?_⟩
  · rw [extract_pdf_eq_render]
    simp [render_pages, str_append_empty, str_append_assoc]
  · rw [extract_pdf_eq_render, extract_pdf_eq_render]
    simp [render_pages, str_empty_append]

/-- C7: presentation extraction emits, for each slide in order, the
separator line and then the text of every shape that exposes text, in shape
order (`render_slides`); a slide whose shapes expose no text contributes
only its separator line. -/
theorem pptx_extraction_structure :
    (∀ slides, extract_text_from_pptx slides = render_slides slides)
    ∧ (∀ sl rest, (∀ sh ∈ sl.shapes, sh.text = none) →
        render_slides (sl :: rest)
          = "\n--- Nouvelle diapositive ---\n" ++ render_slides rest) := by
  refine ⟨extract_pptx_eq_render, fun sl rest h => ?_⟩
  simp [render_slides, render_shapes_of_no_text _ h, str_append_empty]

/-- Witness for C7 at a concrete presentation: a slide with a single
text-less shape contributes only the separator line. -/
theorem pptx_extraction_structure_witness :
    render_slides [⟨[⟨none⟩]⟩, ⟨[]⟩]
      = "\n--- Nouvelle diapositive ---\n" ++ render_slides [(⟨[]⟩ : Slide)] :=
  pptx_extraction_structure.2 ⟨[⟨none⟩]⟩ [⟨[]⟩] (by decide)

/-- C3: spreadsheet extraction renders a header line with the column names
comma-joined, a line with the total row count, and a rendering of only the
first 5 data rows; with fewer than 5 rows all of them are kept, with at
least 5 exactly the first 5. -/
theorem excel_extraction_structure :
    ∀ df : DataFrame,
      (extract_text_from_excel df
        = "Colonnes : " ++ String.intercalate ", " df.columns ++ "\n\n"
          ++ "Nombre de lignes : " ++ toString df.rows.length ++ "\n"
          ++ "Résumé des données :\n"
          ++ DataFrame.to_string ⟨df.columns, df.rows.take 5⟩ ++ "\n")
      ∧ (df.rows.length < 5 → df.head.rows = df.rows)
      ∧ (5 ≤ df.rows.length → df.head.rows = df.rows.take 5 ∧ df.head.rows.length = 5) := by
  intro df
  refine ⟨?_, fun h => ?_, fun h => ⟨rfl, ?_⟩⟩
  · apply String.ext
    simp [extract_text_from_excel, DataFrame.head, String.data_append, List.append_assoc,
      str_data_empty]
  · simp only [DataFrame.head]
    exact List.take_of_length_le (by omega)
  · simp only [DataFrame.head, List.length_take]
    omega

/-- Witness for C3: a one-row sheet keeps its single row; a six-row sheet
keeps exactly 5 rows. -/
theorem excel_extraction_structure_witness :
    (⟨["a"], [["1"]]⟩ : DataFrame).head.rows = [["1"]]
    ∧ (⟨["a"], [["1"], ["2"], ["3"], ["4"], ["5"], ["6"]]⟩ : DataFrame).head.rows.length = 5 :=
  ⟨(excel_extraction_structure ⟨["a"], [["1"]]⟩).2.1 (by decide),
   ((excel_extraction_structure ⟨["a"], [["1"], ["2"], ["3"], ["4"], ["5"], ["6"]]⟩).2.2
     (by decide)).2⟩

/-! ### Claims about language detection -/

/-- C9: the classification request contains only the first 500 characters
of the text, so detection behaves identically on two texts that agree on
their first 500 characters. -/
theorem detect_uses_only_first_500 :
    (∀ t : String,
      detect_user_message t
        = "Quelle est la langue de ce texte ? Réponds uniquement par le code langue.\n\nTexte: "
          ++ t.take 500)
    ∧ ∀ t1 t2 : String, t1.take 500 = t2.take 500 →
        detect_user_message t1 = detect_user_message t2
        ∧ ∀ oracle, detect_text_language oracle t1 = detect_text_language oracle t2 := by
  refine ⟨fun t => rfl, fun t1 t2 h => ?_⟩
  have hm : detect_user_message t1 = detect_user_message t2 := by
    simp [detect_user_message, h]
  exact ⟨hm, fun oracle => by simp [detect_text_language, hm]⟩

set_option maxRecDepth 4096 in
/-- Witness for C9: two different 501-character texts that agree on their
first 500 characters give the same request. -/
theorem detect_uses_only_first_500_witness :
    detect_user_message (String.mk (List.replicate 501 'a'))
      = detect_user_message (String.mk (List.replicate 500 'a' ++ ['b'])) :=
  (detect_uses_only_first_500.2 (String.mk (List.replicate 501 'a'))
    (String.mk (List.replicate 500 'a' ++ ['b']))
    (by
      rw [String.take_eq, String.take_eq]
      congr 1)).1

/-- Counterexample to C1 as stated: when the classification call raises,
the failure IS surfaced to the user — `detect_text_language` shows an
`st.error` message (src/app.py:94) before returning the default `"fr"`. -/
theorem detect_failure_is_surfaced :
    (detect_text_language (fun _ => Except.error "boom") "Bonjour").errors
      = ["Erreur lors de la détection de la langue : boom"]
    ∧ (detect_text_language (fun _ => Except.error "boom") "Bonjour").errors ≠ [] := by
  exact ⟨rfl, by decide⟩

/-- C1 (amended): when the classification call fails, detection returns the
fixed default language code `"fr"` and shows an error message to the user;
for every input text the operation produces a language code (never a
`Failure`): either the default `"fr"` or the stripped response content. -/
theorem detect_failure_defaults_to_fr :
    (∀ oracle text e, oracle (detect_user_message text) = Except.error e →
      detect_text_language oracle text
        = ⟨"fr", ["Erreur lors de la détection de la langue : " ++ e]⟩)
    ∧ ∀ (oracle : String → PyExcept String) (text : String),
        (detect_text_language oracle text).lang = "fr"
        ∨ ∃ c, oracle (detect_user_message text) = Except.ok c
            ∧ (detect_text_language oracle text).lang = c.trim := by
  constructor
  · intro oracle text e h
    simp [detect_text_language, h]
  · intro oracle text
    cases h : oracle (detect_user_message text) with
    | ok c => exact Or.inr ⟨c, rfl, by simp [detect_text_language, h]⟩
    | error e => exact Or.inl (by simp [detect_text_language, h])

/-- Witness for the amended C1 at a concrete failing oracle and text. -/
theorem detect_failure_defaults_to_fr_witness :
    detect_text_language (fun _ => Except.error "timeout") "Hello"
      = ⟨"fr", ["Erreur lors de la détection de la langue : timeout"]⟩ :=
  detect_failure_defaults_to_fr.1 (fun _ => Except.error "timeout") "Hello" "timeout" rfl

/-! ### Claims about the prompt builder -/

lemma lookup_prompt_eq (li : String) (ml : Nat) (text s : String) :
    (prompt_templates li ml text).lookup s
      = if s = "vulgarized" then
          some (li ++ "Résume le texte suivant de manière vulgarisée, en utilisant un langage simple \n            et accessible. Longueur approximative : "
            ++ toString ml ++ " mots.\n            \n            Texte : " ++ text)
        else if s = "technical" then
          some (li ++ "Fais un résumé technique du texte suivant, en te concentrant sur les aspects \n            techniques et méthodologiques importants. Longueur approximative : "
            ++ toString ml ++ " mots.\n            \n            Texte : " ++ text)
        else if s = "bullets" then
          some (li ++ "Résume les points clés du texte suivant sous forme de liste à puces.\n            Maximum "
            ++ toString ml ++ " points importants.\n            \n            Texte : " ++ text)
        else if s = "executive" then
          some (li ++ "Génère un executive summary du texte suivant, focalisé sur les points \n            stratégiques et les conclusions principales. Longueur approximative : "
            ++ toString ml ++ " mots.\n            \n            Texte : " ++ text)
        else none := by
  by_cases h1 : s = "vulgarized"
  · simp [prompt_templates, List.lookup, h1]
  · by_cases h2 : s = "technical"
    · simp [prompt_templates, List.lookup, h1, h2]
    · by_cases h3 : s = "bullets"
      · simp [prompt_templates, List.lookup, h1, h2, h3]
      · by_cases h4 : s = "executive"
        · simp [prompt_templates, List.lookup, h1, h2, h3, h4]
        · simp [prompt_templates, List.lookup, h1, h2, h3, h4,
            beq_false_of_ne h1, beq_false_of_ne h2, beq_false_of_ne h3, beq_false_of_ne h4]

/-- C4: whenever a prompt is rendered for a style, the extracted text is a
verbatim suffix of the rendered prompt. -/
theorem prompt_has_text_as_suffix :
    ∀ (li : String) (ml : Nat) (text s p : String),
      (prompt_templates li ml text).lookup s = some p → ∃ q, p = q ++ text := by
  intro li ml text s p h
  rw [lookup_prompt_eq] at h
  split_ifs at h <;>
    (injection h with h; exact ⟨_, h.symm⟩)

/-- Witness for C4 at a concrete style, length, and text. -/
theorem prompt_has_text_as_suffix_witness :
    ∃ q,
      ("Résume les points clés du texte suivant sous forme de liste à puces.\n            Maximum 3 points importants.\n            \n            Texte : chat" : String)
        = q ++ "chat" :=
  prompt_has_text_as_suffix "" 3 "chat" "bullets"
    "Résume les points clés du texte suivant sous forme de liste à puces.\n            Maximum 3 points importants.\n            \n            Texte : chat"
    (by rfl)

lemma vulgarized_head_split :
    ("Résume le texte suivant de manière vulgarisée, en utilisant un langage simple \n            et accessible. Longueur approximative : " : String)
      = "Résume le texte suivant de manière vulgarisée"
        ++ ", en utilisant un langage simple \n            et accessible. Longueur approximative : " :=
  rfl

lemma technical_head_split :
    ("Fais un résumé technique du texte suivant, en te concentrant sur les aspects \n            techniques et méthodologiques importants. Longueur approximative : " : String)
      = "Fais un résumé technique du texte suivant"
        ++ ", en te concentrant sur les aspects \n            techniques et méthodologiques importants. Longueur approximative : " :=
  rfl

lemma bullets_head_split :
    ("Résume les points clés du texte suivant sous forme de liste à puces.\n            Maximum " : String)
      = "Résume les points clés du texte suivant sous forme de liste à puces"
        ++ ".\n            Maximum " :=
  rfl

lemma executive_head_split :
    ("Génère un executive summary du texte suivant, focalisé sur les points \n            stratégiques et les conclusions principales. Longueur approximative : " : String)
      = "Génère un executive summary du texte suivant"
        ++ ", focalisé sur les points \n            stratégiques et les conclusions principales. Longueur approximative : " :=
  rfl

/-- C2: a style outside {vulgarized, technical, bullets, executive} finds
no template (`KeyError`), so summarization fails — `None` with an error
shown — rather than silently defaulting to one of the four styles; and
each of the four defined styles renders a prompt opening with its own
structurally distinct instruction wording right after `lang_instruction`. -/
theorem undefined_style_fails_and_styles_distinct :
    (∀ (dO sO : String → PyExcept String) (text s : String) (ml : Nat)
        (dl : Bool) (il : Option String) (ol : String),
      s ∉ (["vulgarized", "technical", "bullets", "executive"] : List String) →
        (∀ li, (prompt_templates li ml text).lookup s = none)
        ∧ (get_summary_from_openai dO sO text s ml dl il ol).summary = none
        ∧ (get_summary_from_openai dO sO text s ml dl il ol).errors ≠ [])
    ∧ (∀ (li : String) (ml : Nat) (text : String),
        ∀ s ∈ (["vulgarized", "technical", "bullets", "executive"] : List String),
          ∃ rest, (prompt_templates li ml text).lookup s
            = some (li ++ (style_instruction_head s ++ rest)))
    ∧ (∀ s1 ∈ (["vulgarized", "technical", "bullets", "executive"] : List String),
        ∀ s2 ∈ (["vulgarized", "technical", "bullets", "executive"] : List String),
          s1 ≠ s2 → style_instruction_head s1 ≠ style_instruction_head s2) := by
  refine ⟨?_, ?_, ?_⟩
  · intro dO sO text s ml dl il ol h
    simp only [List.mem_cons, List.not_mem_nil, or_false, not_or] at h
    obtain ⟨h1, h2, h3, h4⟩ := h
    have hlk : ∀ li, (prompt_templates li ml text).lookup s = none := by
      intro li
      rw [lookup_prompt_eq]
      simp [h1, h2, h3, h4]
    refine ⟨hlk, ?_, ?_⟩
    · unfold get_summary_from_openai
      cases hli : lang_instruction_of
          (if dl then
            (some (detect_text_language dO text).lang, (detect_text_language dO text).errors)
          else (il, [])).1 ol with
      | error e => simp [hli]
      | ok li => simp [hli, hlk]
    · unfold get_summary_from_openai
      cases hli : lang_instruction_of
          (if dl then
            (some (detect_text_language dO text).lang, (detect_text_language dO text).errors)
          else (il, [])).1 ol with
      | error e => simp [hli]
      | ok li => simp [hli, hlk]
  · intro li ml text s hs
    simp only [List.mem_cons, List.not_mem_nil, or_false] at hs
    rcases hs with rfl | rfl | rfl | rfl
    · refine ⟨", en utilisant un langage simple \n            et accessible. Longueur approximative : "
        ++ toString ml ++ " mots.\n            \n            Texte : " ++ text, ?_⟩
      have hl : (prompt_templates li ml text).lookup "vulgarized"
          = some (li ++ "Résume le texte suivant de manière vulgarisée, en utilisant un langage simple \n            et accessible. Longueur approximative : "
            ++ toString ml ++ " mots.\n            \n            Texte : " ++ text) := by
        rw [lookup_prompt_eq]
        simp
      have hh : style_instruction_head "vulgarized" = "Résume le texte suivant de manière vulgarisée" := by
        simp [style_instruction_head]
      rw [hl, hh, vulgarized_head_split]
      simp only [Option.some.injEq, str_append_assoc]
    · refine ⟨", en te concentrant sur les aspects \n            techniques et méthodologiques importants. Longueur approximative : "
        ++ toString ml ++ " mots.\n            \n            Texte : " ++ text, ?_⟩
      have hl : (prompt_templates li ml text).lookup "technical"
          = some (li ++ "Fais un résumé technique du texte suivant, en te concentrant sur les aspects \n            techniques et méthodologiques importants. Longueur approximative : "
            ++ toString ml ++ " mots.\n            \n            Texte : " ++ text) := by
        rw [lookup_prompt_eq]
        simp
      have hh : style_instruction_head "technical" = "Fais un résumé technique du texte suivant" := by
        simp [style_instruction_head]
      rw [hl, hh, technical_head_split]
      simp only [Option.some.injEq, str_append_assoc]
    · refine ⟨".\n            Maximum "
        ++ toString ml ++ " points importants.\n            \n            Texte : " ++ text, ?_⟩
      have hl : (prompt_templates li ml text).lookup "bullets"
          = some (li ++ "Résume les points clés du texte suivant sous forme de liste à puces.\n            Maximum "
            ++ toString ml ++ " points importants.\n            \n            Texte : " ++ text) := by
        rw [lookup_prompt_eq]
        simp
      have hh : style_instruction_head "bullets" = "Résume les points clés du texte suivant sous forme de liste à puces" := by
        simp [style_instruction_head]
      rw [hl, hh, bullets_head_split]
      simp only [Option.some.injEq, str_append_assoc]
    · refine ⟨", focalisé sur les points \n            stratégiques et les conclusions principales. Longueur approximative : "
        ++ toString ml ++ " mots.\n            \n            Texte : " ++ text, ?_⟩
      have hl : (prompt_templates li ml text).lookup "executive"
          = some (li ++ "Génère un executive summary du texte suivant, focalisé sur les points \n            stratégiques et les conclusions principales. Longueur approximative : "
            ++ toString ml ++ " mots.\n            \n            Texte : " ++ text) := by
        rw [lookup_prompt_eq]
        simp
      have hh : style_instruction_head "executive" = "Génère un executive summary du texte suivant" := by
        simp [style_instruction_head]
      rw [hl, hh, executive_head_split]
      simp only [Option.some.injEq, str_append_assoc]
  · intro s1 hs1 s2 hs2 hne
    simp only [List.mem_cons, List.not_mem_nil, or_false] at hs1 hs2
    rcases hs1 with rfl | rfl | rfl | rfl <;> rcases hs2 with rfl | rfl | rfl | rfl <;>
      first
        | exact absurd rfl hne
        | decide

/-- Witness for C2: a style outside the four defined ones yields `None`
with an error shown, and two defined styles have distinct instruction
openings. -/
theorem undefined_style_fails_and_styles_distinct_witness :
    (get_summary_from_openai (fun _ => Except.ok "fr") (fun _ => Except.ok "résumé")
        "texte" "haiku" 100 false (some "fr") "fr").summary = none
    ∧ (get_summary_from_openai (fun _ => Except.ok "fr") (fun _ => Except.ok "résumé")
        "texte" "haiku" 100 false (some "fr") "fr").errors ≠ []
    ∧ style_instruction_head "vulgarized" ≠ style_instruction_head "bullets" :=
  ⟨(undefined_style_fails_and_styles_distinct.1 (fun _ => Except.ok "fr")
      (fun _ => Except.ok "résumé") "texte" "haiku" 100 false (some "fr") "fr"
      (by decide)).2.1,
   (undefined_style_fails_and_styles_distinct.1 (fun _ => Except.ok "fr")
      (fun _ => Except.ok "résumé") "texte" "haiku" 100 false (some "fr") "fr"
      (by decide)).2.2,
   undefined_style_fails_and_styles_distinct.2.2 "vulgarized" (by decide) "bullets"
     (by decide) (by decide)⟩

set_option maxRecDepth 8192 in
/-- C8: the rendered prompt opens with the translation instruction
`"Traduis en "` exactly when the (detected or declared) input language
differs from the requested output language. -/
theorem translation_instruction_iff_languages_differ :
    ∀ (il : Option String) (ol li : String) (ml : Nat) (text s p : String),
      lang_instruction_of il ol = Except.ok li →
      (prompt_templates li ml text).lookup s = some p →
      (p.data.take 11 = ("Traduis en " : String).data ↔ il ≠ some ol) := by
  intro il ol li ml text s p hli hp
  by_cases heq : il = some ol
  · have hli0 : li = "" := by
      unfold lang_instruction_of at hli
      rw [if_neg (not_not_intro heq)] at hli
      exact (Except.ok.inj hli).symm
    subst hli0
    refine iff_of_false ?_ (not_not_intro heq)
    rw [lookup_prompt_eq] at hp
    split_ifs at hp <;> injection hp with hp <;> subst hp <;>
      (simp only [String.data_append, str_data_empty, List.nil_append, List.append_assoc]
       rw [List.take_append_of_le_length] <;> decide)
  · have hname : ∃ name, li = "Traduis en " ++ name ++ ". " := by
      unfold lang_instruction_of at hli
      rw [if_pos heq] at hli
      cases hlk : lang_names.lookup ol with
      | some name =>
        rw [hlk] at hli
        exact ⟨name, (Except.ok.inj hli).symm⟩
      | none =>
        rw [hlk] at hli
        cases hli
    obtain ⟨name, hli2⟩ := hname
    subst hli2
    refine iff_of_true ?_ heq
    rw [lookup_prompt_eq] at hp
    split_ifs at hp <;> injection hp with hp <;> subst hp <;>
      (simp only [String.data_append, str_data_empty, List.nil_append, List.append_assoc]
       rw [List.take_append_of_le_length] <;> decide)

set_option maxRecDepth 8192 in
/-- Witness for C8: declared language `"en"`, output `"fr"` — the rendered
vulgarized prompt opens with the translation instruction. -/
theorem translation_instruction_iff_languages_differ_witness :
    (("Traduis en français. Résume le texte suivant de manière vulgarisée, en utilisant un langage simple \n            et accessible. Longueur approximative : 10 mots.\n            \n            Texte : Hello" : String).data.take 11
        = ("Traduis en " : String).data)
      ↔ some "en" ≠ some "fr" :=
  translation_instruction_iff_languages_differ (some "en") "fr" "Traduis en français. " 10
    "Hello" "vulgarized"
    "Traduis en français. Résume le texte suivant de manière vulgarisée, en utilisant un langage simple \n            et accessible. Longueur approximative : 10 mots.\n            \n            Texte : Hello"
    (by rfl) (by rfl)

/-! ### Claims about the content dispatcher -/

/-- C5: an unrecognized media type falls back to UTF-8 decoding of the raw
bytes — invalid UTF-8 yields a failure with a human-readable message and no
partial text — and a parsing library raising on a recognized type also
yields such a failure. -/
theorem dispatcher_fallback_and_failures :
    (∀ f : UploadedFile,
      f.type ∉ (["application/pdf",
          "application/vnd.openxmlformats-officedocument.wordprocessingml.document",
          "application/vnd.ms-excel",
          "application/vnd.openxmlformats-officedocument.spreadsheetml.sheet",
          "application/vnd.ms-powerpoint",
          "application/vnd.openxmlformats-officedocument.presentationml.presentation"] :
            List String) →
        (∀ cs, utf8Decode f.rawBytes = some cs →
            get_file_content f = (some (String.mk cs), []))
        ∧ (utf8Decode f.rawBytes = none →
            get_file_content f
              = (none,
                  ["Erreur lors de la lecture du fichier : UnicodeDecodeError: invalid start byte"])))
    ∧ (∀ f e, f.type = "application/pdf" → f.asPdf = Except.error e →
        get_file_content f = (none, ["Erreur lors de la lecture du fichier : " ++ e]))
    ∧ (∀ f e,
        f.type = "application/vnd.openxmlformats-officedocument.wordprocessingml.document" →
        f.asDocx = Except.error e →
        get_file_content f = (none, ["Erreur lors de la lecture du fichier : " ++ e]))
    ∧ (∀ f e,
        f.type = "application/vnd.ms-excel"
          ∨ f.type = "application/vnd.openxmlformats-officedocument.spreadsheetml.sheet" →
        f.asExcel = Except.error e →
        get_file_content f = (none, ["Erreur lors de la lecture du fichier : " ++ e]))
    ∧ (∀ f e,
        f.type = "application/vnd.ms-powerpoint"
          ∨ f.type = "application/vnd.openxmlformats-officedocument.presentationml.presentation" →
        f.asPptx = Except.error e →
        get_file_content f = (none, ["Erreur lors de la lecture du fichier : " ++ e])) := by
  refine ⟨?_, ?_, ?_, ?_, ?_⟩
  · intro f h
    simp only [List.mem_cons, List.not_mem_nil, or_false, not_or] at h
    obtain ⟨h1, h2, h3, h4, h5, h6⟩ := h
    constructor
    · intro cs hcs
      simp [get_file_content, h1, h2, h3, h4, h5, h6, hcs]
    · intro hcs
      simp [get_file_content, h1, h2, h3, h4, h5, h6, hcs]
  · intro f e ht he
    simp [get_file_content, ht, he, Except.map]
  · intro f e ht he
    simp [get_file_content, ht, he, Except.map]
  · intro f e ht he
    rcases ht with ht | ht <;> simp [get_file_content, ht, he, Except.map]
  · intro f e ht he
    rcases ht with ht | ht <;> simp [get_file_content, ht, he, Except.map]

/-- Witness for C5 at concrete files: a `text/plain` file with valid UTF-8
bytes decodes, one with an invalid byte fails, and a PDF whose parser
raises fails. -/
theorem dispatcher_fallback_and_failures_witness :
    get_file_content
        ⟨"text/plain", [0x68, 0x69], Except.ok [], Except.ok [], Except.ok ⟨[], []⟩,
          Except.ok []⟩
      = (some "hi", [])
    ∧ get_file_content
        ⟨"text/plain", [0xFF], Except.ok [], Except.ok [], Except.ok ⟨[], []⟩, Except.ok []⟩
      = (none, ["Erreur lors de la lecture du fichier : UnicodeDecodeError: invalid start byte"])
    ∧ get_file_content
        ⟨"application/pdf", [], Except.error "EOF marker not found", Except.ok [],
          Except.ok ⟨[], []⟩, Except.ok []⟩
      = (none, ["Erreur lors de la lecture du fichier : EOF marker not found"]) :=
  ⟨((dispatcher_fallback_and_failures.1
      ⟨"text/plain", [0x68, 0x69], Except.ok [], Except.ok [], Except.ok ⟨[], []⟩,
        Except.ok []⟩ (by decide)).1 ['h', 'i'] (by decide)),
   ((dispatcher_fallback_and_failures.1
      ⟨"text/plain", [0xFF], Except.ok [], Except.ok [], Except.ok ⟨[], []⟩,
        Except.ok []⟩ (by decide)).2 (by decide)),
   (dispatcher_fallback_and_failures.2.1
      ⟨"application/pdf", [], Except.error "EOF marker not found", Except.ok [],
        Except.ok ⟨[], []⟩, Except.ok []⟩ "EOF marker not found" rfl rfl)⟩

/-- C10: with automatic detection enabled, the caller's `input_language` is
ignored — the outcome is identical for any two supplied input languages —
and when the detection call succeeds the run equals a detection-free run
whose input language is the detected one. -/
theorem detection_overrides_input_language :
    ∀ (dO sO : String → PyExcept String) (text s : String) (ml : Nat)
      (il1 il2 : Option String) (ol : String),
      get_summary_from_openai dO sO text s ml true il1 ol
        = get_summary_from_openai dO sO text s ml true il2 ol
      ∧ ∀ c, dO (detect_user_message text) = Except.ok c →
          get_summary_from_openai dO sO text s ml true il1 ol
            = get_summary_from_openai dO sO text s ml false (some c.trim) ol := by
  intro dO sO text s ml il1 il2 ol
  constructor
  · rfl
  · intro c hc
    simp [get_summary_from_openai, detect_text_language, hc]

/-- Witness for C10: with detection on, supplying `none` or `some "de"`
gives the same outcome, which equals the detection-free run on the detected
`"en"`. -/
theorem detection_overrides_input_language_witness :
    get_summary_from_openai (fun _ => Except.ok "en") (fun _ => Except.ok "Résumé.")
        "texte" "bullets" 5 true none "fr"
      = get_summary_from_openai (fun _ => Except.ok "en") (fun _ => Except.ok "Résumé.")
        "texte" "bullets" 5 true (some "de") "fr"
    ∧ get_summary_from_openai (fun _ => Except.ok "en") (fun _ => Except.ok "Résumé.")
        "texte" "bullets" 5 true none "fr"
      = get_summary_from_openai (fun _ => Except.ok "en") (fun _ => Except.ok "Résumé.")
        "texte" "bullets" 5 false (some ("en".trim)) "fr" :=
  ⟨(detection_overrides_input_language (fun _ => Except.ok "en")
      (fun _ => Except.ok "Résumé.") "texte" "bullets" 5 none (some "de") "fr").1,
   (detection_overrides_input_language (fun _ => Except.ok "en")
      (fun _ => Except.ok "Résumé.") "texte" "bullets" 5 none (some "de") "fr").2 "en" rfl⟩
